import Mathlib

/-!
Shallow embedding of the FlagHive backend's Challenge Solve & Flag-Attempt
subsystem, and proofs of the specification claims about it.

The database is modelled as an explicit state (`DB`): lists of rows for the
tables the subsystem touches.  Each service function is translated from the
TypeScript source: a function that `throw new Error(msg)` becomes a function
into `Except DomainError _`, where each distinct thrown message is one
constructor of `DomainError` (the HTTP boundary dispatches on exact message
equality, so messages and constructors are in bijection).  A thrown error
aborts the service call before any write in every function embedded here, so
an `Except.error` result carries no state: the database is unchanged.
Timestamps (`new Date()`) are an explicit `now : Nat` parameter; row ids
generated by the store are drawn from a counter in the state.
-/

/-- One row of the `Challenge` table (`prisma/migrations` schema: `points`,
`flag`, `solvedAt`, `description`, `category` are nullable; `solved` defaults
to false). -/
structure Challenge where
  id : String
  name : String
  description : Option String
  category : Option String
  points : Option Int
  flag : Option String
  solved : Bool
  solvedAt : Option Nat
  teamId : String
  eventId : String
deriving DecidableEq, Repr

/-- One row of the `FlagAttempt` table (the ledger): `flagValue`, `isSuccess`,
nullable `comment`, author, challenge, creation time. -/
structure FlagAttempt where
  id : Nat
  flagValue : String
  isSuccess : Bool
  comment : Option String
  userId : String
  challengeId : String
  createdAt : Nat
deriving DecidableEq, Repr

/-- The database state: the tables the Solve / Flag-Attempt subsystem reads or
writes.  `events` holds event ids, `eventTeams` holds (eventId, teamId) join
rows, `teamMembers` holds (userId, teamId) join rows, `assignments` holds
(challengeId, userId) join rows.  `nextAttemptId` / `nextChallengeId` model
the store's id generation for inserted rows. -/
structure DB where
  events : List String
  eventTeams : List (String × String)
  teamMembers : List (String × String)
  challenges : List Challenge
  flagAttempts : List FlagAttempt
  assignments : List (String × String)
  nextAttemptId : Nat
  nextChallengeId : Nat
deriving Repr

/-- Each distinct `throw new Error(message)` in the embedded services, as one
constructor per message. -/
inductive DomainError where
  /-- message: Evenement non trouve -/
  | eventNotFound
  /-- message: Challenge non trouve -/
  | challengeNotFound
  /-- message: Challenge non trouve dans cet evenement (cross-event guard) -/
  | challengeNotInEvent
  /-- message: Non autorise a resoudre ce challenge -/
  | notAuthorizedSolve
  /-- message: Challenge deja resolu -/
  | alreadySolved
  /-- message: Non autorise a soumettre un flag pour ce challenge -/
  | notAuthorizedSubmit
  /-- message: Non autorise a voir les tentatives pour ce challenge -/
  | notAuthorizedViewAttempts
  /-- message: Tentative de flag non trouvee -/
  | attemptNotFound
  /-- message: Non autorise a voir cette tentative -/
  | notAuthorizedViewAttempt
  /-- message: Non autorise a modifier cette tentative -/
  | notAuthorizedEditAttempt
  /-- message: Vous n avez pas acces a ce challenge (challengeService solve) -/
  | noAccessChallenge
  /-- message: Flag incorrect (challengeService solve) -/
  | incorrectFlag
  /-- message: Cette equipe n est pas associee a cet evenement -/
  | teamNotInEvent
  /-- message: Vous n etes pas membre de cette equipe -/
  | notTeamMember
  /-- message: Un challenge avec ce nom existe deja pour cet evenement et cette equipe -/
  | duplicateChallengeName
  /-- an unexpected persistence failure (unreachable in the model) -/
  | serverError
deriving DecidableEq, Repr

/-- the `prisma.challenge.findUnique({ where: { id } })` lookup. -/
def findChallenge (db : DB) (challengeId : String) : Option Challenge :=
  db.challenges.find? (fun c => c.id == challengeId)

/-- the `prisma.flagAttempt.findUnique({ where: { id } })` lookup. -/
def findAttempt (db : DB) (attemptId : Nat) : Option FlagAttempt :=
  db.flagAttempts.find? (fun a => a.id == attemptId)

/-- the `prisma.teamMember.findUnique({ where: { userId_teamId } })`
membership test (§4.3 IsTeamMember). -/
def isTeamMember (db : DB) (userId teamId : String) : Bool :=
  db.teamMembers.contains (userId, teamId)

/-- the `prisma.event.findUnique({ where: { id } })` existence test. -/
def eventExists (db : DB) (eventId : String) : Bool :=
  db.events.contains eventId

/-- The per-row effect of the `prisma.flagAttempt.update` that Annotate
performs: overwrite the comment of the row with the given id, leave every
other row — and every other field — alone. -/
def setComment (attemptId : Nat) (s : String) (r : FlagAttempt) : FlagAttempt :=
  if r.id == attemptId then { r with comment := some s } else r

/-- the `prisma.eventTeam.findUnique({ where: { eventId_teamId } })`
existence test. -/
def eventTeamExists (db : DB) (eventId teamId : String) : Bool :=
  db.eventTeams.contains (eventId, teamId)

namespace FlagAttemptService

/-- Embeds `createFlagAttempt` of
`src/services/flagAttempts/flagAttemptService.ts`: resolve challenge (throw
challenge-not-found), check team membership (throw not-authorized), then
insert one new ledger row. -/
def createFlagAttempt (db : DB) (now : Nat) (flagValue : String)
    (isSuccess : Bool) (comment : Option String) (userId challengeId : String) :
    Except DomainError (DB × FlagAttempt) :=
  match findChallenge db challengeId with
  | none => .error .challengeNotFound
  | some challenge =>
    if isTeamMember db userId challenge.teamId = false then
      .error .notAuthorizedSubmit
    else
      let attempt : FlagAttempt :=
        { id := db.nextAttemptId, flagValue := flagValue, isSuccess := isSuccess,
          comment := comment, userId := userId, challengeId := challengeId,
          createdAt := now }
      let db1 : DB :=
        { db with
          flagAttempts := db.flagAttempts ++ [attempt]
          nextAttemptId := db.nextAttemptId + 1 }
      .ok (db1, attempt)

/-- Embeds `getFlagAttemptsByChallenge`: resolve challenge, check membership,
return the challenge's ledger rows ordered by `createdAt` descending (rows are
appended in creation order, so descending order is the reverse of the
filtered list). -/
def getFlagAttemptsByChallenge (db : DB) (challengeId userId : String) :
    Except DomainError (List FlagAttempt) :=
  match findChallenge db challengeId with
  | none => .error .challengeNotFound
  | some challenge =>
    if isTeamMember db userId challenge.teamId = false then
      .error .notAuthorizedViewAttempts
    else
      .ok ((db.flagAttempts.filter (fun a => a.challengeId == challengeId)).reverse)

/-- Embeds `getFlagAttemptById`: resolve the attempt (throw
attempt-not-found), walk attempt → challenge → team for the membership check.
The included `challenge` relation is backed by a foreign key, so the
challenge lookup cannot fail on a consistent database; a missing parent row
would surface as a store error (`serverError`). -/
def getFlagAttemptById (db : DB) (attemptId : Nat) (userId : String) :
    Except DomainError FlagAttempt :=
  match findAttempt db attemptId with
  | none => .error .attemptNotFound
  | some attempt =>
    match findChallenge db attempt.challengeId with
    | none => .error .serverError
    | some challenge =>
      if isTeamMember db userId challenge.teamId = false then
        .error .notAuthorizedViewAttempt
      else
        .ok attempt

/-- Embeds `addCommentToFlagAttempt`: resolve the attempt, membership check
via attempt → challenge → team, then `update` the row's `comment` field. -/
def addCommentToFlagAttempt (db : DB) (attemptId : Nat) (comment userId : String) :
    Except DomainError (DB × FlagAttempt) :=
  match findAttempt db attemptId with
  | none => .error .attemptNotFound
  | some attempt =>
    match findChallenge db attempt.challengeId with
    | none => .error .serverError
    | some challenge =>
      if isTeamMember db userId challenge.teamId = false then
        .error .notAuthorizedEditAttempt
      else
        let updated := { attempt with comment := some comment }
        let db1 : DB :=
          { db with flagAttempts := db.flagAttempts.map (setComment attemptId comment) }
        .ok (db1, updated)

end FlagAttemptService

/-- The service result of the event-scoped `solveChallenge`: the returned
object literal.  The failure branch returns `{ solved: false }` with no
`points` property, so `points` is an `Option`: `none` models an absent
field. -/
structure SolveResult where
  solved : Bool
  points : Option Int
deriving DecidableEq, Repr

namespace ChallengeServiceV2

/-- Embeds `createChallenge` of `src/unnamed/part_016`: event existence,
event-team association, team membership, and (name, teamId, eventId)
uniqueness checks, then the challenge insert and the creator's auto
assignment. -/
def createChallenge (db : DB) (name : String) (description category : Option String)
    (points : Option Int) (teamId eventId userId : String) :
    Except DomainError (DB × Challenge) :=
  if eventExists db eventId = false then .error .eventNotFound
  else if eventTeamExists db eventId teamId = false then .error .teamNotInEvent
  else if isTeamMember db userId teamId = false then .error .notTeamMember
  else
    match db.challenges.find? (fun c =>
        c.name == name && c.teamId == teamId && c.eventId == eventId) with
    | some _ => .error .duplicateChallengeName
    | none =>
      let challenge : Challenge :=
        { id := "challenge-" ++ toString db.nextChallengeId, name := name,
          description := description, category := category, points := points,
          flag := none, solved := false, solvedAt := none,
          teamId := teamId, eventId := eventId }
      let db1 : DB :=
        { db with
          challenges := db.challenges ++ [challenge]
          assignments := db.assignments ++ [(challenge.id, userId)]
          nextChallengeId := db.nextChallengeId + 1 }
      .ok (db1, challenge)

/-- Embeds the event-scoped `solveChallenge(challengeId, eventId, userId,
flag)` of `src/unnamed/part_016`: event existence, challenge lookup,
cross-event guard, membership, already-solved check, strict string comparison
`challenge.flag === flag` (a null stored flag never equals a submitted
string), the unconditional ledger write via `createFlagAttempt`, and on match
the challenge update.  The success branch returns
`{ solved: true, points: challenge.points || 0 }`; the failure branch returns
`{ solved: false }` with no points field. -/
def solveChallenge (db : DB) (now : Nat) (challengeId eventId userId flag : String) :
    Except DomainError (DB × SolveResult) :=
  if eventExists db eventId = false then .error .eventNotFound
  else
    match findChallenge db challengeId with
    | none => .error .challengeNotFound
    | some challenge =>
      if challenge.eventId ≠ eventId then .error .challengeNotInEvent
      else if isTeamMember db userId challenge.teamId = false then
        .error .notAuthorizedSolve
      else if challenge.solved then .error .alreadySolved
      else
        let isSuccess := challenge.flag == some flag
        match FlagAttemptService.createFlagAttempt db now flag isSuccess
            (some (if isSuccess then "Tentative réussie" else "Tentative échouée"))
            userId challengeId with
        | .error e => .error e
        | .ok (db1, _) =>
          if isSuccess = false then
            .ok (db1, { solved := false, points := none })
          else
            let db2 : DB :=
              { db1 with
                challenges := db1.challenges.map (fun c =>
                  if c.id == challengeId then
                    { c with solved := true, solvedAt := some now }
                  else c) }
            .ok (db2, { solved := true, points := some (challenge.points.getD 0) })

end ChallengeServiceV2

/-- Embeds the JavaScript truthiness test `challenge.flag && challenge.flag
!== flag` of `src/services/challenges/challengeService.ts`: a null or empty
stored flag is falsy, so only a non-null, non-empty stored flag that differs
from the submission counts as a mismatch. -/
def flagMismatch (stored : Option String) (submitted : String) : Bool :=
  match stored with
  | none => false
  | some f => f != "" && f != submitted

namespace ChallengeService

/-- Embeds the team-scoped `solveChallenge(challengeId, flag, userId)` of
`src/services/challenges/challengeService.ts`: challenge lookup, membership
check, flag check only when a flag is configured (truthiness of
`challenge.flag`), then the update `solved := true, solvedAt := now` — with
no already-solved check and no `FlagAttempt` write on this path.  The return
value is the updated challenge row. -/
def solveChallenge (db : DB) (now : Nat) (challengeId flag userId : String) :
    Except DomainError (DB × Challenge) :=
  match findChallenge db challengeId with
  | none => .error .challengeNotFound
  | some challenge =>
    if isTeamMember db userId challenge.teamId = false then
      .error .noAccessChallenge
    else if flagMismatch challenge.flag flag then
      .error .incorrectFlag
    else
      let db1 : DB :=
        { db with
          challenges := db.challenges.map (fun c =>
            if c.id == challengeId then
              { c with solved := true, solvedAt := some now }
            else c) }
      .ok (db1, { challenge with solved := true, solvedAt := some now })

end ChallengeService

/-- An HTTP error as produced by `sendError(res, message, status, code)`. -/
structure HttpError where
  status : Nat
  code : String
deriving DecidableEq, Repr

namespace SolveRoute

/-- Embeds the catch-block of `POST /:challengeId/solve` in
`src/routes/api/v1/events/challenges/index.ts`: the handler compares the
thrown message against three exact strings — challenge-not-found and
event-not-found map to 404 RESOURCE_NOT_FOUND, already-solved maps to 400
CHALLENGE_ALREADY_SOLVED, the membership failure maps to 403
FORBIDDEN_ACTION — and every other message (including the cross-event
"Challenge non trouvé dans cet événement") falls through to 500
SERVER_ERROR. -/
def errorToHttp (e : DomainError) : HttpError :=
  match e with
  | .challengeNotFound => { status := 404, code := "RESOURCE_NOT_FOUND" }
  | .eventNotFound => { status := 404, code := "RESOURCE_NOT_FOUND" }
  | .alreadySolved => { status := 400, code := "CHALLENGE_ALREADY_SOLVED" }
  | .notAuthorizedSolve => { status := 403, code := "FORBIDDEN_ACTION" }
  | _ => { status := 500, code := "SERVER_ERROR" }

end SolveRoute

/-- The `error.code` values produced by the `ApiResponse`-style flag-attempt
service (`src/unnamed/part_013`). -/
inductive ErrorCode where
  | NOT_FOUND
  | UNAUTHORIZED
  | SERVER_ERROR
deriving DecidableEq, Repr

/-- The `ApiResponse` envelope of `src/utils/responseHandler` as used by
`src/unnamed/part_013`: `success`, an optional `data` payload, and an
optional `error.code`.  The `message` and `meta.timestamp` fields carry no
behaviour relevant to the claims and are omitted. -/
structure ApiResponse (α : Type) where
  success : Bool
  data : Option α
  errorCode : Option ErrorCode
deriving Repr

namespace FlagAttemptServiceApi

/-- Embeds `createFlagAttempt` of `src/unnamed/part_013`: the same checks as
the throwing variant, but every outcome is returned as an `ApiResponse`
value — no exception escapes (the catch-all branch would return
SERVER_ERROR).  The state is returned unchanged on failure. -/
def createFlagAttempt (db : DB) (now : Nat) (flagValue : String)
    (isSuccess : Bool) (comment : Option String) (userId challengeId : String) :
    DB × ApiResponse FlagAttempt :=
  match findChallenge db challengeId with
  | none => (db, { success := false, data := none, errorCode := some .NOT_FOUND })
  | some challenge =>
    if isTeamMember db userId challenge.teamId = false then
      (db, { success := false, data := none, errorCode := some .UNAUTHORIZED })
    else
      let attempt : FlagAttempt :=
        { id := db.nextAttemptId, flagValue := flagValue, isSuccess := isSuccess,
          comment := comment, userId := userId, challengeId := challengeId,
          createdAt := now }
      let db1 : DB :=
        { db with
          flagAttempts := db.flagAttempts ++ [attempt]
          nextAttemptId := db.nextAttemptId + 1 }
      (db1, { success := true, data := some attempt, errorCode := none })

/-- Embeds `getFlagAttemptsByChallenge` of `src/unnamed/part_013` (read
only). -/
def getFlagAttemptsByChallenge (db : DB) (challengeId userId : String) :
    ApiResponse (List FlagAttempt) :=
  match findChallenge db challengeId with
  | none => { success := false, data := none, errorCode := some .NOT_FOUND }
  | some challenge =>
    if isTeamMember db userId challenge.teamId = false then
      { success := false, data := none, errorCode := some .UNAUTHORIZED }
    else
      { success := true,
        data := some ((db.flagAttempts.filter (fun a => a.challengeId == challengeId)).reverse),
        errorCode := none }

/-- Embeds `getFlagAttemptById` of `src/unnamed/part_013` (read only).  A
missing parent challenge row would be a store-level inconsistency caught by
the surrounding try/catch, hence SERVER_ERROR on that branch. -/
def getFlagAttemptById (db : DB) (attemptId : Nat) (userId : String) :
    ApiResponse FlagAttempt :=
  match findAttempt db attemptId with
  | none => { success := false, data := none, errorCode := some .NOT_FOUND }
  | some attempt =>
    match findChallenge db attempt.challengeId with
    | none => { success := false, data := none, errorCode := some .SERVER_ERROR }
    | some challenge =>
      if isTeamMember db userId challenge.teamId = false then
        { success := false, data := none, errorCode := some .UNAUTHORIZED }
      else
        { success := true, data := some attempt, errorCode := none }

/-- Embeds `addCommentToFlagAttempt` of `src/unnamed/part_013`. -/
def addCommentToFlagAttempt (db : DB) (attemptId : Nat) (comment userId : String) :
    DB × ApiResponse FlagAttempt :=
  match findAttempt db attemptId with
  | none => (db, { success := false, data := none, errorCode := some .NOT_FOUND })
  | some attempt =>
    match findChallenge db attempt.challengeId with
    | none => (db, { success := false, data := none, errorCode := some .SERVER_ERROR })
    | some challenge =>
      if isTeamMember db userId challenge.teamId = false then
        (db, { success := false, data := none, errorCode := some .UNAUTHORIZED })
      else
        let db1 : DB :=
          { db with flagAttempts := db.flagAttempts.map (setComment attemptId comment) }
        (db1, { success := true, data := some { attempt with comment := some comment },
                errorCode := none })

end FlagAttemptServiceApi

/-! Concrete database fixtures used by the witnesses and counterexamples.
Team `t1` participates in event `e1`; users `u1` and `u3` are its members,
`u2` is not a member of any team. -/

/-- An unsolved challenge of team `t1` in event `e1` with a configured flag
and 100 points. -/
def chall1 : Challenge :=
  { id := "c1", name := "web1", description := none, category := some "web",
    points := some 100, flag := some "flag{abc}", solved := false,
    solvedAt := none, teamId := "t1", eventId := "e1" }

/-- A challenge already marked solved. -/
def chall2 : Challenge :=
  { chall1 with id := "c2", name := "web2", solved := true, solvedAt := some 3 }

/-- An unsolved challenge with a configured flag but a null points column. -/
def chall3 : Challenge :=
  { chall1 with id := "c3", name := "pwn1", points := none, flag := some "flag{p}" }

/-- A challenge with a null flag column. -/
def chall4 : Challenge :=
  { chall1 with id := "c4", name := "misc1", flag := none }

/-- One pre-existing ledger row on challenge `c1`. -/
def attempt0 : FlagAttempt :=
  { id := 0, flagValue := "flag{zzz}", isSuccess := false,
    comment := some "first try", userId := "u1", challengeId := "c1",
    createdAt := 1 }

/-- The fixture database. -/
def db0 : DB :=
  { events := ["e1", "e2"], eventTeams := [("e1", "t1")],
    teamMembers := [("u1", "t1"), ("u3", "t1")],
    challenges := [chall1, chall2, chall3, chall4],
    flagAttempts := [attempt0], assignments := [], nextAttemptId := 1,
    nextChallengeId := 5 }

/-- The ledger row inserted by a successful submission through the
event-scoped solve. -/
def successRow (db : DB) (now : Nat) (userId challengeId flag : String) :
    FlagAttempt :=
  { id := db.nextAttemptId, flagValue := flag, isSuccess := true,
    comment := some "Tentative réussie", userId := userId,
    challengeId := challengeId, createdAt := now }

/-- The ledger row inserted by a failed submission through the event-scoped
solve. -/
def failureRow (db : DB) (now : Nat) (userId challengeId flag : String) :
    FlagAttempt :=
  { id := db.nextAttemptId, flagValue := flag, isSuccess := false,
    comment := some "Tentative échouée", userId := userId,
    challengeId := challengeId, createdAt := now }

/-- Marks one challenge row solved at `now`, as the store's
`challenge.update` does. -/
def markSolved (now : Nat) (challengeId : String) (ch : Challenge) : Challenge :=
  if ch.id == challengeId then { ch with solved := true, solvedAt := some now }
  else ch

/-! Helper lemmas shared by the claim proofs. -/

theorem find_comm_map {α : Type} (l : List α) (p : α → Bool) (g : α → α)
    (hg : ∀ x, p (g x) = p x) : (l.map g).find? p = (l.find? p).map g := by
  induction l with
  | nil => rfl
  | cons x xs ih =>
    by_cases hp : p x = true
    · rw [List.map_cons, List.find?_cons_of_pos _ (by rw [hg]; exact hp),
        List.find?_cons_of_pos _ hp, Option.map_some']
    · have hp' : p x = false := by simpa using hp
      rw [List.map_cons, List.find?_cons_of_neg _ (by simp [hg, hp']),
        List.find?_cons_of_neg _ (by simp [hp']), ih]

theorem markSolved_id (now : Nat) (challengeId : String) (ch : Challenge) :
    (markSolved now challengeId ch).id = ch.id := by
  unfold markSolved
  by_cases h : ch.id == challengeId <;> simp [h]

/-- After the solve update, looking a challenge up by id returns the mapped
row. -/
theorem findChallenge_after_markSolved (db : DB) (now : Nat) (c : Challenge)
    (hfind : findChallenge db c.id = some c) :
    ((db.challenges.map (markSolved now c.id)).find? (fun ch => ch.id == c.id)) =
      some { c with solved := true, solvedAt := some now } := by
  rw [find_comm_map _ _ _ (fun x => by rw [markSolved_id])]
  rw [show db.challenges.find? (fun ch => ch.id == c.id) = some c from hfind]
  simp [markSolved]

/-- Core characterisation of the event-scoped solve on a correct submission:
all guards pass, one successful ledger row is appended, the challenge row is
marked solved, and the service returns the points (defaulted to 0 when the
points column is null). -/
theorem solveChallenge_success_spec (db : DB) (now : Nat) (c : Challenge)
    (userId flag : String)
    (hfind : findChallenge db c.id = some c)
    (hev : eventExists db c.eventId = true)
    (hmem : isTeamMember db userId c.teamId = true)
    (hflag : c.flag = some flag)
    (hsolved : c.solved = false) :
    ChallengeServiceV2.solveChallenge db now c.id c.eventId userId flag =
      .ok ({ db with
             challenges := db.challenges.map (markSolved now c.id)
             flagAttempts := db.flagAttempts ++ [successRow db now userId c.id flag]
             nextAttemptId := db.nextAttemptId + 1 },
           { solved := true, points := some (c.points.getD 0) }) := by
  unfold ChallengeServiceV2.solveChallenge FlagAttemptService.createFlagAttempt
  rw [hev, hfind]
  simp only [hflag, hmem, hsolved, successRow]
  simp
  intro a _
  unfold markSolved
  by_cases h : a.id = c.id <;> simp [h]

/-- Core characterisation of the event-scoped solve on an incorrect
submission: all guards pass, one failed ledger row is appended, the challenge
table is untouched, and the service returns `{ solved := false }` with no
points field. -/
theorem solveChallenge_failure_spec (db : DB) (now : Nat) (c : Challenge)
    (userId stored flag : String)
    (hfind : findChallenge db c.id = some c)
    (hev : eventExists db c.eventId = true)
    (hmem : isTeamMember db userId c.teamId = true)
    (hflag : c.flag = some stored)
    (hne : stored ≠ flag)
    (hsolved : c.solved = false) :
    ChallengeServiceV2.solveChallenge db now c.id c.eventId userId flag =
      .ok ({ db with
             flagAttempts := db.flagAttempts ++ [failureRow db now userId c.id flag]
             nextAttemptId := db.nextAttemptId + 1 },
           { solved := false, points := none }) := by
  unfold ChallengeServiceV2.solveChallenge FlagAttemptService.createFlagAttempt
  rw [hev, hfind]
  simp only [hflag, hmem, hsolved, failureRow]
  simp [hne]

/-- Core characterisation of the event-scoped solve on an already-solved
challenge: the call throws the already-solved domain error before any write,
so no ledger row is created and the database is unchanged. -/
theorem solveChallenge_already_solved_spec (db : DB) (now : Nat) (c : Challenge)
    (userId flag : String)
    (hfind : findChallenge db c.id = some c)
    (hev : eventExists db c.eventId = true)
    (hmem : isTeamMember db userId c.teamId = true)
    (hsolved : c.solved = true) :
    ChallengeServiceV2.solveChallenge db now c.id c.eventId userId flag =
      .error .alreadySolved := by
  unfold ChallengeServiceV2.solveChallenge
  rw [hev, hfind]
  simp [hmem, hsolved]

/-- C1 — corrected.  For every existing challenge with a non-null configured
flag and `solved = false`, a member of the owning team solving with the
challenge's own event id and the exact configured flag gets
`{solved: true, points: challenge.points || 0}` (the code defaults a null
points column to 0, which is the one divergence from the claim as stated);
the challenge row is marked solved with `solvedAt` set to the current time,
exactly one new `FlagAttempt` row with `isSuccess = true` is appended, and no
existing `FlagAttempt` row is modified. -/
theorem correct_flag_solves_challenge (db : DB) (now : Nat) (c : Challenge)
    (userId flag : String)
    (hfind : findChallenge db c.id = some c)
    (hev : eventExists db c.eventId = true)
    (hmem : isTeamMember db userId c.teamId = true)
    (hflag : c.flag = some flag)
    (hsolved : c.solved = false) :
    ∃ db1 : DB,
      ChallengeServiceV2.solveChallenge db now c.id c.eventId userId flag =
        .ok (db1, { solved := true, points := some (c.points.getD 0) }) ∧
      db1.flagAttempts = db.flagAttempts ++ [successRow db now userId c.id flag] ∧
      (successRow db now userId c.id flag).isSuccess = true ∧
      findChallenge db1 c.id = some { c with solved := true, solvedAt := some now } := by
  refine ⟨_, solveChallenge_success_spec db now c userId flag hfind hev hmem hflag hsolved,
    rfl, rfl, ?_⟩
  exact findChallenge_after_markSolved db now c hfind

/-- C1 counterexample to the claim as stated: on challenge `c3` the points
column is null, its flag is configured and it is unsolved, `u1` is a team
member — yet the returned points value is `0`, not the challenge's (null)
`points`. -/
theorem correct_flag_points_counterexample :
    (ChallengeServiceV2.solveChallenge db0 7 "c3" "e1" "u1" "flag{p}").toOption.map
        (fun r => r.2.points) = some (some 0) ∧
    chall3.flag = some "flag{p}" ∧ chall3.solved = false ∧
    chall3.points = none ∧ some (some (0 : Int)) ≠ some chall3.points :=
  ⟨rfl, rfl, rfl, rfl, by decide⟩

/-- C1 witness: the amended theorem applied to the fixture database. -/
theorem correct_flag_solves_challenge_witness :
    ∃ db1 : DB,
      ChallengeServiceV2.solveChallenge db0 7 chall1.id chall1.eventId "u1" "flag{abc}" =
        .ok (db1, { solved := true, points := some (chall1.points.getD 0) }) ∧
      db1.flagAttempts = db0.flagAttempts ++ [successRow db0 7 "u1" chall1.id "flag{abc}"] ∧
      (successRow db0 7 "u1" chall1.id "flag{abc}").isSuccess = true ∧
      findChallenge db1 chall1.id = some { chall1 with solved := true, solvedAt := some 7 } :=
  correct_flag_solves_challenge db0 7 chall1 "u1" "flag{abc}" rfl rfl rfl rfl rfl

/-- C2 — corrected.  For every Solve call by a team member on an existing,
unsolved challenge with matching event id and a submitted flag that differs
from the non-null configured flag: the challenge table is untouched, exactly
one new `FlagAttempt` row with `isSuccess = false` is appended, and the call
returns `{solved: false}` — with no points field at all (the claimed
`points: 0` is the one divergence: the code's failure branch returns an
object without a points property). -/
theorem wrong_flag_records_failure (db : DB) (now : Nat) (c : Challenge)
    (userId stored flag : String)
    (hfind : findChallenge db c.id = some c)
    (hev : eventExists db c.eventId = true)
    (hmem : isTeamMember db userId c.teamId = true)
    (hflag : c.flag = some stored)
    (hne : stored ≠ flag)
    (hsolved : c.solved = false) :
    ∃ db1 : DB,
      ChallengeServiceV2.solveChallenge db now c.id c.eventId userId flag =
        .ok (db1, { solved := false, points := none }) ∧
      db1.challenges = db.challenges ∧
      db1.flagAttempts = db.flagAttempts ++ [failureRow db now userId c.id flag] ∧
      (failureRow db now userId c.id flag).isSuccess = false ∧
      findChallenge db1 c.id = some c :=
  ⟨_, solveChallenge_failure_spec db now c userId stored flag hfind hev hmem hflag hne hsolved,
    rfl, rfl, rfl, hfind⟩

/-- C2 counterexample to the claim as stated: an incorrect submission on the
fixture returns `{ solved := false }` whose (absent) points field is not the
claimed `0`. -/
theorem wrong_flag_return_counterexample :
    (ChallengeServiceV2.solveChallenge db0 7 "c1" "e1" "u1" "flag{wrong}").toOption.map
        (fun r => r.2) = some { solved := false, points := none } ∧
    ({ solved := false, points := none } : SolveResult) ≠
      { solved := false, points := some 0 } :=
  ⟨rfl, by decide⟩

/-- C2 witness: the amended theorem applied to the fixture database. -/
theorem wrong_flag_records_failure_witness :
    ∃ db1 : DB,
      ChallengeServiceV2.solveChallenge db0 7 chall1.id chall1.eventId "u1" "flag{wrong}" =
        .ok (db1, { solved := false, points := none }) ∧
      db1.challenges = db0.challenges ∧
      db1.flagAttempts = db0.flagAttempts ++ [failureRow db0 7 "u1" chall1.id "flag{wrong}"] ∧
      (failureRow db0 7 "u1" chall1.id "flag{wrong}").isSuccess = false ∧
      findChallenge db1 chall1.id = some chall1 :=
  wrong_flag_records_failure db0 7 chall1 "u1" "flag{abc}" "flag{wrong}" rfl rfl rfl rfl
    (by decide) rfl

/-- C3 — corrected.  A Solve call by a team member on an already-solved
challenge fails with the already-solved domain error before any write, so no
`FlagAttempt` row is created and the challenge state is unchanged; the
false→true transition therefore happens at most once per challenge.  The
cited HTTP boundary, however, translates this error to status 400 with code
CHALLENGE_ALREADY_SOLVED, not to 409 as claimed. -/
theorem already_solved_conflict (db : DB) (now : Nat) (c : Challenge)
    (userId flag : String)
    (hfind : findChallenge db c.id = some c)
    (hev : eventExists db c.eventId = true)
    (hmem : isTeamMember db userId c.teamId = true)
    (hsolved : c.solved = true) :
    ChallengeServiceV2.solveChallenge db now c.id c.eventId userId flag =
      .error .alreadySolved ∧
    SolveRoute.errorToHttp .alreadySolved =
      { status := 400, code := "CHALLENGE_ALREADY_SOLVED" } :=
  ⟨solveChallenge_already_solved_spec db now c userId flag hfind hev hmem hsolved, rfl⟩

/-- C3 counterexample to the claim as stated: solving the already-solved
fixture challenge raises the already-solved error, and the boundary maps that
error to status 400, not 409. -/
theorem already_solved_status_counterexample :
    ChallengeServiceV2.solveChallenge db0 7 "c2" "e1" "u1" "flag{abc}" =
      .error .alreadySolved ∧
    (SolveRoute.errorToHttp .alreadySolved).status = 400 ∧
    (SolveRoute.errorToHttp .alreadySolved).status ≠ 409 :=
  ⟨rfl, rfl, by decide⟩

/-- C3 witness: the amended theorem applied to the fixture database. -/
theorem already_solved_conflict_witness :
    ChallengeServiceV2.solveChallenge db0 7 chall2.id chall2.eventId "u1" "flag{abc}" =
      .error .alreadySolved ∧
    SolveRoute.errorToHttp .alreadySolved =
      { status := 400, code := "CHALLENGE_ALREADY_SOLVED" } :=
  already_solved_conflict db0 7 chall2 "u1" "flag{abc}" rfl rfl rfl rfl

/-- C4 — confirmed.  A user who is not a member of the challenge's owning
team is rejected by Solve, List-attempts, Get-attempt and Annotate,
regardless of the submitted flag; the rejected Solve creates no ledger row
(every error aborts before the insert), and the ledger write itself
(`createFlagAttempt`) performs its own membership check, so it too fails for
a non-member whatever the attempted values. -/
theorem non_member_forbidden (db : DB) (now : Nat) (c : Challenge)
    (a : FlagAttempt) (userId flag : String) (attemptId : Nat)
    (hfind : findChallenge db c.id = some c)
    (hev : eventExists db c.eventId = true)
    (ha : findAttempt db attemptId = some a)
    (hac : a.challengeId = c.id)
    (hmem : isTeamMember db userId c.teamId = false) :
    ChallengeServiceV2.solveChallenge db now c.id c.eventId userId flag =
      .error .notAuthorizedSolve ∧
    (∀ (v : String) (s : Bool) (cm : Option String),
      FlagAttemptService.createFlagAttempt db now v s cm userId c.id =
        .error .notAuthorizedSubmit) ∧
    FlagAttemptService.getFlagAttemptsByChallenge db c.id userId =
      .error .notAuthorizedViewAttempts ∧
    FlagAttemptService.getFlagAttemptById db attemptId userId =
      .error .notAuthorizedViewAttempt ∧
    (∀ cm : String,
      FlagAttemptService.addCommentToFlagAttempt db attemptId cm userId =
        .error .notAuthorizedEditAttempt) := by
  refine ⟨?_, ?_, ?_, ?_, ?_⟩
  · unfold ChallengeServiceV2.solveChallenge
    rw [hev, hfind]
    simp [hmem]
  · intro v s cm
    unfold FlagAttemptService.createFlagAttempt
    rw [hfind]
    simp [hmem]
  · unfold FlagAttemptService.getFlagAttemptsByChallenge
    rw [hfind]
    simp [hmem]
  · unfold FlagAttemptService.getFlagAttemptById
    rw [ha]
    have hc : findChallenge db a.challengeId = some c := by rw [hac]; exact hfind
    simp [hc, hmem]
  · intro cm
    unfold FlagAttemptService.addCommentToFlagAttempt
    rw [ha]
    have hc : findChallenge db a.challengeId = some c := by rw [hac]; exact hfind
    simp [hc, hmem]

/-- C4 witness: the theorem applied to the fixture database with the
non-member user `u2`. -/
theorem non_member_forbidden_witness :
    ChallengeServiceV2.solveChallenge db0 7 chall1.id chall1.eventId "u2" "flag{abc}" =
      .error .notAuthorizedSolve ∧
    (∀ (v : String) (s : Bool) (cm : Option String),
      FlagAttemptService.createFlagAttempt db0 7 v s cm "u2" chall1.id =
        .error .notAuthorizedSubmit) ∧
    FlagAttemptService.getFlagAttemptsByChallenge db0 chall1.id "u2" =
      .error .notAuthorizedViewAttempts ∧
    FlagAttemptService.getFlagAttemptById db0 0 "u2" =
      .error .notAuthorizedViewAttempt ∧
    (∀ cm : String,
      FlagAttemptService.addCommentToFlagAttempt db0 0 cm "u2" =
        .error .notAuthorizedEditAttempt) :=
  non_member_forbidden db0 7 chall1 attempt0 "u2" "flag{abc}" 0 rfl rfl rfl rfl rfl

/-- C5 — confirmed.  Solving an existing challenge while supplying a
different event id fails with a not-found domain error — the cross-event
guard when the supplied event exists, the event-not-found error when it does
not — and, the error being thrown before any write, no `FlagAttempt` row is
created and the challenge is unchanged. -/
theorem cross_event_guard (db : DB) (now : Nat) (c : Challenge)
    (userId flag otherEventId : String)
    (hfind : findChallenge db c.id = some c)
    (hne : otherEventId ≠ c.eventId) :
    (eventExists db otherEventId = true →
      ChallengeServiceV2.solveChallenge db now c.id otherEventId userId flag =
        .error .challengeNotInEvent) ∧
    (eventExists db otherEventId = false →
      ChallengeServiceV2.solveChallenge db now c.id otherEventId userId flag =
        .error .eventNotFound) := by
  constructor
  · intro hev
    unfold ChallengeServiceV2.solveChallenge
    rw [hev, hfind]
    simp [Ne.symm hne]
  · intro hev
    unfold ChallengeServiceV2.solveChallenge
    rw [hev]
    simp

/-- C5 witness: the theorem applied to the fixture — challenge `c1` belongs
to event `e1`, and the Solve call supplies the other existing event `e2`. -/
theorem cross_event_guard_witness :
    ((eventExists db0 "e2" = true →
      ChallengeServiceV2.solveChallenge db0 7 chall1.id "e2" "u1" "flag{abc}" =
        .error .challengeNotInEvent) ∧
    (eventExists db0 "e2" = false →
      ChallengeServiceV2.solveChallenge db0 7 chall1.id "e2" "u1" "flag{abc}" =
        .error .eventNotFound)) ∧
    eventExists db0 "e2" = true :=
  ⟨cross_event_guard db0 7 chall1 "u1" "flag{abc}" "e2" rfl (by decide), rfl⟩

/-- Sequential execution of repeated event-scoped Solve calls with the same
arguments: the full serialisation of the requests, which is one admissible
schedule of N concurrent calls on the single-threaded runtime.  A call that
throws leaves the database unchanged (every throw in `solveChallenge` happens
before its first write). -/
def iterateSolve (now : Nat) (challengeId eventId userId flag : String) :
    Nat → DB → DB
  | 0, db => db
  | n + 1, db =>
    match ChallengeServiceV2.solveChallenge db now challengeId eventId userId flag with
    | .ok (db1, _) => iterateSolve now challengeId eventId userId flag n db1
    | .error _ => iterateSolve now challengeId eventId userId flag n db

/-- A solve call on a challenge that is already marked solved never returns
ok: every path either throws one of the guard errors or the already-solved
error. -/
theorem solveChallenge_solved_not_ok (db : DB) (now : Nat)
    (eventId userId flag : String) (c : Challenge)
    (hfind : findChallenge db c.id = some c)
    (hsolved : c.solved = true) (p : DB × SolveResult) :
    ChallengeServiceV2.solveChallenge db now c.id eventId userId flag ≠ .ok p := by
  unfold ChallengeServiceV2.solveChallenge
  rw [hfind]
  by_cases hev : eventExists db eventId = false
  · simp [hev]
  · by_cases hcross : c.eventId ≠ eventId
    · simp [hev, hcross]
    · by_cases hm : isTeamMember db userId c.teamId = false
      · simp [hev, hcross, hm]
      · simp [hev, hcross, hm, hsolved]

/-- Once the challenge row is solved, further iterations of the solve call
leave the database exactly as it is. -/
theorem iterateSolve_fixpoint (now : Nat) (eventId userId flag : String)
    (c : Challenge) :
    ∀ (n : Nat) (db : DB), findChallenge db c.id = some c → c.solved = true →
      iterateSolve now c.id eventId userId flag n db = db := by
  intro n
  induction n with
  | zero => intro db _ _; rfl
  | succ m ih =>
    intro db hfind hsolved
    unfold iterateSolve
    cases hres : ChallengeServiceV2.solveChallenge db now c.id eventId userId flag with
    | ok p =>
      exact absurd hres (solveChallenge_solved_not_ok db now eventId userId flag c hfind hsolved p)
    | error e =>
      exact ih db hfind hsolved

/-- C6 — corrected.  Running N ≥ 1 solve calls with the correct flag in the
serialised schedule: the first call appends one successful ledger row and
flips the challenge to solved; every later call fails with the already-solved
error and appends nothing.  So there is exactly one false→true transition,
but only one ledger row — not the N rows the claim requires. -/
theorem repeated_correct_solve (db : DB) (now : Nat) (c : Challenge)
    (userId flag : String) (n : Nat)
    (hfind : findChallenge db c.id = some c)
    (hev : eventExists db c.eventId = true)
    (hmem : isTeamMember db userId c.teamId = true)
    (hflag : c.flag = some flag)
    (hsolved : c.solved = false) :
    iterateSolve now c.id c.eventId userId flag (n + 1) db =
      { db with
        challenges := db.challenges.map (markSolved now c.id)
        flagAttempts := db.flagAttempts ++ [successRow db now userId c.id flag]
        nextAttemptId := db.nextAttemptId + 1 } ∧
    findChallenge (iterateSolve now c.id c.eventId userId flag (n + 1) db) c.id =
      some { c with solved := true, solvedAt := some now } ∧
    (iterateSolve now c.id c.eventId userId flag (n + 1) db).flagAttempts.length =
      db.flagAttempts.length + 1 := by
  have hstep :
      iterateSolve now c.id c.eventId userId flag (n + 1) db =
        { db with
          challenges := db.challenges.map (markSolved now c.id)
          flagAttempts := db.flagAttempts ++ [successRow db now userId c.id flag]
          nextAttemptId := db.nextAttemptId + 1 } := by
    unfold iterateSolve
    rw [solveChallenge_success_spec db now c userId flag hfind hev hmem hflag hsolved]
    exact iterateSolve_fixpoint now c.eventId userId flag
      { c with solved := true, solvedAt := some now } n _
      (findChallenge_after_markSolved db now c hfind) rfl
  refine ⟨hstep, ?_, ?_⟩
  · rw [hstep]
    exact findChallenge_after_markSolved db now c hfind
  · rw [hstep]
    simp

/-- C6 counterexample to the claim as stated, at N = 2 in the serialised
schedule: the second call fails with the already-solved error, and the
ledger has grown by one row, not by two. -/
theorem repeated_solve_rows_counterexample :
    ChallengeServiceV2.solveChallenge
        (iterateSolve 7 "c1" "e1" "u1" "flag{abc}" 1 db0) 7 "c1" "e1" "u1" "flag{abc}" =
      .error .alreadySolved ∧
    (iterateSolve 7 "c1" "e1" "u1" "flag{abc}" 2 db0).flagAttempts.length =
      db0.flagAttempts.length + 1 ∧
    db0.flagAttempts.length + 1 ≠ db0.flagAttempts.length + 2 :=
  ⟨rfl, rfl, by decide⟩

/-- C6 witness: the amended theorem applied to the fixture database at
N = 3. -/
theorem repeated_correct_solve_witness :
    iterateSolve 7 chall1.id chall1.eventId "u1" "flag{abc}" 3 db0 =
      { db0 with
        challenges := db0.challenges.map (markSolved 7 chall1.id)
        flagAttempts := db0.flagAttempts ++ [successRow db0 7 "u1" chall1.id "flag{abc}"]
        nextAttemptId := db0.nextAttemptId + 1 } ∧
    findChallenge (iterateSolve 7 chall1.id chall1.eventId "u1" "flag{abc}" 3 db0) chall1.id =
      some { chall1 with solved := true, solvedAt := some 7 } ∧
    (iterateSolve 7 chall1.id chall1.eventId "u1" "flag{abc}" 3 db0).flagAttempts.length =
      db0.flagAttempts.length + 1 :=
  repeated_correct_solve db0 7 chall1 "u1" "flag{abc}" 2 rfl rfl rfl rfl rfl

theorem setComment_id (attemptId : Nat) (s : String) (r : FlagAttempt) :
    (setComment attemptId s r).id = r.id := by
  unfold setComment
  by_cases h : r.id == attemptId <;> simp [h]

theorem setComment_setComment (attemptId : Nat) (s1 s2 : String)
    (r : FlagAttempt) :
    setComment attemptId s2 (setComment attemptId s1 r) = setComment attemptId s2 r := by
  unfold setComment
  by_cases h : r.id == attemptId <;> simp [h]

/-- Core characterisation of Annotate for an authorized requester: the
targeted row's comment is overwritten in place and the updated row is
returned. -/
theorem addComment_spec (db : DB) (a : FlagAttempt) (c : Challenge)
    (attemptId : Nat) (s userId : String)
    (ha : findAttempt db attemptId = some a)
    (hc : findChallenge db a.challengeId = some c)
    (hm : isTeamMember db userId c.teamId = true) :
    FlagAttemptService.addCommentToFlagAttempt db attemptId s userId =
      .ok ({ db with flagAttempts := db.flagAttempts.map (setComment attemptId s) },
           { a with comment := some s }) := by
  unfold FlagAttemptService.addCommentToFlagAttempt
  rw [ha]
  simp [hc, hm]

/-- Looking the annotated row up afterwards returns it with the new
comment. -/
theorem findAttempt_after_setComment (db : DB) (a : FlagAttempt)
    (attemptId : Nat) (s : String)
    (ha : findAttempt db attemptId = some a) :
    findAttempt
        { db with flagAttempts := db.flagAttempts.map (setComment attemptId s) }
        attemptId = some { a with comment := some s } := by
  have hpa : (a.id == attemptId) = true := by
    have h := List.find?_some
      (show db.flagAttempts.find? (fun r => r.id == attemptId) = some a from ha)
    simpa using h
  show (db.flagAttempts.map (setComment attemptId s)).find? (fun r => r.id == attemptId) = _
  rw [find_comm_map _ _ _ (fun r => by rw [setComment_id])]
  rw [show db.flagAttempts.find? (fun r => r.id == attemptId) = some a from ha]
  simp [setComment, hpa]

/-- C7 — confirmed.  Two successive Annotate calls by authorized team members
each overwrite only the comment field of the targeted row: afterwards the
persisted ledger equals the original with just that row's comment replaced by
the latest value, the row's flagValue, isSuccess and all other fields are
those of the original row, and the challenge table is untouched. -/
theorem annotate_overwrites_comment (db : DB) (a : FlagAttempt) (c : Challenge)
    (attemptId : Nat) (u1 u2 s1 s2 : String)
    (ha : findAttempt db attemptId = some a)
    (hc : findChallenge db a.challengeId = some c)
    (hm1 : isTeamMember db u1 c.teamId = true)
    (hm2 : isTeamMember db u2 c.teamId = true) :
    ∃ db1 db2 : DB,
      FlagAttemptService.addCommentToFlagAttempt db attemptId s1 u1 =
        .ok (db1, { a with comment := some s1 }) ∧
      FlagAttemptService.addCommentToFlagAttempt db1 attemptId s2 u2 =
        .ok (db2, { a with comment := some s2 }) ∧
      findAttempt db1 attemptId = some { a with comment := some s1 } ∧
      findAttempt db2 attemptId = some { a with comment := some s2 } ∧
      db2.flagAttempts = db.flagAttempts.map (setComment attemptId s2) ∧
      db1.challenges = db.challenges ∧ db2.challenges = db.challenges := by
  have h1 := addComment_spec db a c attemptId s1 u1 ha hc hm1
  have hfa1 := findAttempt_after_setComment db a attemptId s1 ha
  have h2 := addComment_spec
    { db with flagAttempts := db.flagAttempts.map (setComment attemptId s1) }
    { a with comment := some s1 } c attemptId s2 u2 hfa1 hc hm2
  have hfa2 := findAttempt_after_setComment
    { db with flagAttempts := db.flagAttempts.map (setComment attemptId s1) }
    { a with comment := some s1 } attemptId s2 hfa1
  refine ⟨{ db with flagAttempts := db.flagAttempts.map (setComment attemptId s1) },
          { db with flagAttempts :=
              (db.flagAttempts.map (setComment attemptId s1)).map (setComment attemptId s2) },
          h1, ?_, hfa1, ?_, ?_, rfl, rfl⟩
  · exact h2
  · exact hfa2
  · show (db.flagAttempts.map (setComment attemptId s1)).map (setComment attemptId s2) = _
    rw [List.map_map]
    have hcomp : setComment attemptId s2 ∘ setComment attemptId s1 = setComment attemptId s2 :=
      funext (fun r => setComment_setComment attemptId s1 s2 r)
    rw [hcomp]

/-- C7 witness: the theorem applied to the fixture row `attempt0` with
members `u1` then `u3`. -/
theorem annotate_overwrites_comment_witness :
    ∃ db1 db2 : DB,
      FlagAttemptService.addCommentToFlagAttempt db0 0 "decoy" "u1" =
        .ok (db1, { attempt0 with comment := some "decoy" }) ∧
      FlagAttemptService.addCommentToFlagAttempt db1 0 "confirmed decoy" "u3" =
        .ok (db2, { attempt0 with comment := some "confirmed decoy" }) ∧
      findAttempt db1 0 = some { attempt0 with comment := some "decoy" } ∧
      findAttempt db2 0 = some { attempt0 with comment := some "confirmed decoy" } ∧
      db2.flagAttempts = db0.flagAttempts.map (setComment 0 "confirmed decoy") ∧
      db1.challenges = db0.challenges ∧ db2.challenges = db0.challenges :=
  annotate_overwrites_comment db0 attempt0 chall1 0 "u1" "u3" "decoy" "confirmed decoy"
    rfl rfl rfl rfl

/-- C8 — confirmed.  The team-scoped 3-argument solve marks every existing
challenge solved for a team member whenever the configured flag is null or
equal to the submission: the row gets `solved = true` and a fresh `solvedAt`,
the `FlagAttempt` table is untouched (this path records nothing in the
ledger), and — having no already-solved guard — a re-solve simply overwrites
`solvedAt` again (the theorem places no hypothesis on the challenge's current
solved state). -/
theorem simple_solve_null_or_matching_flag (db : DB) (now : Nat) (c : Challenge)
    (userId flag : String)
    (hfind : findChallenge db c.id = some c)
    (hmem : isTeamMember db userId c.teamId = true)
    (hflag : c.flag = none ∨ c.flag = some flag) :
    ChallengeService.solveChallenge db now c.id flag userId =
      .ok ({ db with challenges := db.challenges.map (markSolved now c.id) },
           { c with solved := true, solvedAt := some now }) ∧
    (({ db with challenges := db.challenges.map (markSolved now c.id) } : DB)).flagAttempts =
      db.flagAttempts ∧
    findChallenge { db with challenges := db.challenges.map (markSolved now c.id) } c.id =
      some { c with solved := true, solvedAt := some now } := by
  have hmis : flagMismatch c.flag flag = false := by
    rcases hflag with h | h <;> simp [flagMismatch, h]
  refine ⟨?_, rfl, findChallenge_after_markSolved db now c hfind⟩
  unfold ChallengeService.solveChallenge
  rw [hfind]
  simp [hmem, hmis]
  intro r _
  unfold markSolved
  by_cases h : r.id = c.id <;> simp [h]

/-- C8 witness: the theorem applied to the fixture challenge `c2`, which is
already solved at time 3 with a configured flag — the call re-solves it,
overwriting `solvedAt` with the new time 9 and recording nothing in the
ledger. -/
theorem simple_solve_witness :
    ChallengeService.solveChallenge db0 9 chall2.id "flag{abc}" "u1" =
      .ok ({ db0 with challenges := db0.challenges.map (markSolved 9 chall2.id) },
           { chall2 with solved := true, solvedAt := some 9 }) ∧
    (({ db0 with challenges := db0.challenges.map (markSolved 9 chall2.id) } : DB)).flagAttempts =
      db0.flagAttempts ∧
    findChallenge { db0 with challenges := db0.challenges.map (markSolved 9 chall2.id) } chall2.id =
      some { chall2 with solved := true, solvedAt := some 9 } :=
  simple_solve_null_or_matching_flag db0 9 chall2 "u1" "flag{abc}" rfl rfl (Or.inr rfl)

/-- An `ApiResponse` envelope is well formed when it is either a success
carrying data and no error code, or a failure carrying no data and one of the
three error codes NOT_FOUND, UNAUTHORIZED, SERVER_ERROR. -/
def wellFormedResponse {α : Type} (r : ApiResponse α) : Prop :=
  (r.success = true ∧ r.data.isSome = true ∧ r.errorCode = none) ∨
  (r.success = false ∧ r.data = none ∧
    (r.errorCode = some .NOT_FOUND ∨ r.errorCode = some .UNAUTHORIZED ∨
      r.errorCode = some .SERVER_ERROR))

/-- C9 — confirmed.  Every operation of the `ApiResponse`-style flag-attempt
service is a total value-returning function of the database state, and every
envelope it can return is well formed: success with data present, or failure
with no data and an error code drawn from NOT_FOUND, UNAUTHORIZED,
SERVER_ERROR (the catch-all persistence branch). -/
theorem api_service_envelopes_well_formed :
    ∀ (db : DB) (now : Nat) (v : String) (s : Bool) (cm : Option String)
      (u cid : String) (aid : Nat) (com : String),
      wellFormedResponse (FlagAttemptServiceApi.createFlagAttempt db now v s cm u cid).2 ∧
      wellFormedResponse (FlagAttemptServiceApi.getFlagAttemptsByChallenge db cid u) ∧
      wellFormedResponse (FlagAttemptServiceApi.getFlagAttemptById db aid u) ∧
      wellFormedResponse (FlagAttemptServiceApi.addCommentToFlagAttempt db aid com u).2 := by
  intro db now v s cm u cid aid com
  refine ⟨?_, ?_, ?_, ?_⟩
  · unfold wellFormedResponse FlagAttemptServiceApi.createFlagAttempt
    rcases hch : findChallenge db cid with _ | ch
    · simp [hch]
    · by_cases hm : isTeamMember db u ch.teamId = false <;> simp [hch, hm]
  · unfold wellFormedResponse FlagAttemptServiceApi.getFlagAttemptsByChallenge
    rcases hch : findChallenge db cid with _ | ch
    · simp [hch]
    · by_cases hm : isTeamMember db u ch.teamId = false <;> simp [hch, hm]
  · unfold wellFormedResponse FlagAttemptServiceApi.getFlagAttemptById
    rcases hat : findAttempt db aid with _ | at1
    · simp [hat]
    · rcases hch : findChallenge db at1.challengeId with _ | ch
      · simp [hat, hch]
      · by_cases hm : isTeamMember db u ch.teamId = false <;> simp [hat, hch, hm]
  · unfold wellFormedResponse FlagAttemptServiceApi.addCommentToFlagAttempt
    rcases hat : findAttempt db aid with _ | at1
    · simp [hat]
    · rcases hch : findChallenge db at1.challengeId with _ | ch
      · simp [hat, hch]
      · by_cases hm : isTeamMember db u ch.teamId = false <;> simp [hat, hch, hm]

/-- C10 — confirmed.  When no EventTeam association exists for the supplied
(eventId, teamId) pair, `createChallenge` fails with the
team-not-in-event error before any write — even though the event exists and
the requesting user is a member of the team — so neither a Challenge row nor
a ChallengeAssignment row is created. -/
theorem create_challenge_requires_event_team (db : DB) (name : String)
    (description category : Option String) (points : Option Int)
    (teamId eventId userId : String)
    (hev : eventExists db eventId = true)
    (hassoc : eventTeamExists db eventId teamId = false)
    (hmem : isTeamMember db userId teamId = true) :
    ChallengeServiceV2.createChallenge db name description category points
      teamId eventId userId = .error .teamNotInEvent := by
  unfold ChallengeServiceV2.createChallenge
  simp [hev, hassoc]

/-- C10 witness: team `t1` is associated with event `e1` but not with the
existing event `e2`, and `u1` is a member of `t1`; creation against `e2`
fails with the team-not-in-event error. -/
theorem create_challenge_requires_event_team_witness :
    ChallengeServiceV2.createChallenge db0 "fresh" none none (some 50)
      "t1" "e2" "u1" = .error .teamNotInEvent :=
  create_challenge_requires_event_team db0 "fresh" none none (some 50)
    "t1" "e2" "u1" rfl rfl rfl
